import Mathlib

/-!
Verification of the iTunes subtitle scraping pipeline
(isubrip/scrapers/itunes_scraper.py) against its specification.

The scraper's own code (get_data, get_subtitles) is embedded directly.
External collaborators that the scraper calls but whose code is not part of
the sources (the HTTP session, the m3u8 library, HLSScraper helpers, the
WebVTTSubtitles class) are modelled as an explicit environment of
Except-valued functions, or as definitions modelled from the spec where the
spec pins their behavior down.
-/

namespace Isubrip

/-- Python exceptions that the embedded code can raise, as a closed datatype. -/
inductive Exc where
  | httpError (status : Nat)
  | playlistLoadError
  | indexError
  | parseError (msg : String)
  | scraperError (msg : String)
  | other (msg : String)
  deriving DecidableEq

/-- Subtitle special-type classification (forced / closed captions), from
isubrip.data_structures. -/
inductive SubtitlesType where
  | cc
  | forced
  deriving DecidableEq

/-- Output format tag (SubtitlesFormatType in isubrip.data_structures). -/
inductive SubtitlesFormatType where
  | subrip
  | webvtt
  deriving DecidableEq

/-- Modelled from the spec: a PlaylistEntry of the master playlist (the m3u8
library's Media object is an external collaborator): group identifier,
language code (may be absent), human-readable name, resolvable URI, a type
tag and a forced flag. -/
structure MediaItem where
  name : String
  language : Option String
  groupId : Option String
  mediaType : Option String
  absolute_uri : String
  forced : Bool
  deriving DecidableEq

/-- Modelled from the spec: attribute lookup by M3U8 attribute name, as used
by the attribute filter engine (HLSScraper.get_media_playlists is not under
src). -/
def MediaItem.getAttr (m : MediaItem) : String → Option String
  | "group-id" => m.groupId
  | "language" => m.language
  | "type" => m.mediaType
  | "name" => some m.name
  | _ => none

/-- Allowed-value lookup in a rule set; a Python dict is modelled as an
association list with distinct keys. -/
def lookupVals (d : List (String × List String)) (k : String) : Option (List String) :=
  (d.find? (fun p => p.1 == k)).map (fun p => p.2)

/-- Modelled from the spec: a stream matches a rule set iff for every
attribute key in the rules the stream's value for that key is present and
contained in the allowed-value set; keys absent from the rules impose no
constraint. -/
def matchesFilters (m : MediaItem) (filters : List (String × List String)) : Bool :=
  filters.all (fun p =>
    match m.getAttr p.1 with
    | some v => p.2.contains v
    | none => false)

/-- An already-parsed master playlist: an ordered sequence of media entries. -/
structure MasterPlaylist where
  media : List MediaItem
  deriving DecidableEq

/-- Modelled from the spec: HLSScraper.get_media_playlists selects the
matching media entries of the master playlist, evaluating entries
independently and preserving playlist order. -/
def get_media_playlists (mpl : MasterPlaylist) (filters : List (String × List String)) :
    List MediaItem :=
  mpl.media.filter (fun m => matchesFilters m filters)

/-- Modelled from the spec: utils.merge_dict_values merges rule sets so that
the merged allowed-value set per key is the union of both sides' sets; a key
present in only one side keeps that side's set. -/
def merge_dict_values (d1 d2 : List (String × List String)) :
    List (String × List String) :=
  (d1.map (fun p => (p.1, p.2 ++ (lookupVals d2 p.1).getD [])))
    ++ d2.filter (fun p => (lookupVals d1 p.1).isNone)

/-- Modelled from the spec: HLSScraper._subtitles_filters is not under src;
per the spec's end-to-end scenario the base rules match subtitle streams of
every language, so the base rule set constrains the stream type only. -/
def hls_subtitles_filters : List (String × List String) :=
  [("type", ["SUBTITLES"])]

/-- The iTunes scraper's base subtitle filter rules (src lines 29-32): a
group-id rule joined with the HLS base rules. -/
def itunes_subtitles_filters : List (String × List String) :=
  ("group-id", ["subtitles_ak", "subtitles_vod-ak-amt.tv.apple.com"]) :: hls_subtitles_filters

/-- Src lines 92 and 98-100: the playlist filter rules actually used by
get_subtitles; a falsy language filter (None or an empty list) leaves the
base rules untouched, otherwise a language rule set is merged over them. -/
def effectiveFilters (language_filter : Option (List String)) :
    List (String × List String) :=
  match language_filter with
  | none => itunes_subtitles_filters
  | some l =>
    if l.isEmpty then itunes_subtitles_filters
    else merge_dict_values itunes_subtitles_filters [("language", l)]

/-- Helper for the embedding of Python str.replace: if pat is a leading
pattern of the list, return the remainder after it. -/
def dropIfMatch : List Char → List Char → Option (List Char)
  | [], l => some l
  | _ :: _, [] => none
  | p :: ps, c :: cs => if p = c then dropIfMatch ps cs else none

/-- Fueled core of Python str.replace: replaces the non-overlapping
occurrences of a (nonempty) pattern left to right; fuel bounds the number of
steps and the input length is always sufficient. -/
def replaceFuel (pat repl : List Char) : Nat → List Char → List Char
  | _, [] => []
  | 0, l => l
  | fuel + 1, c :: cs =>
    match pat, dropIfMatch pat (c :: cs) with
    | _ :: _, some rest => repl ++ replaceFuel pat repl fuel rest
    | _, _ => c :: replaceFuel pat repl fuel cs

/-- Python str.replace for a nonempty pattern. -/
def pyReplace (s pat repl : String) : String :=
  String.mk (replaceFuel pat.data repl.data s.data.length s.data)

/-- Default whitespace set of Python str.strip (ASCII part). -/
def isPySpace (c : Char) : Bool :=
  c = ' ' || c = '\t' || c = '\n' || c = '\r' || c = '\x0b' || c = '\x0c'

/-- Python str.strip with no argument: remove leading and trailing whitespace. -/
def pyStrip (s : String) : String :=
  String.mk (((s.data.dropWhile isPySpace).reverse.dropWhile isPySpace).reverse)

/-- Src lines 106 and 127: the displayed language name is the playlist
entry's name with every occurrence of " (forced)" replaced away and the
result stripped of surrounding whitespace. -/
def cleanName (name : String) : String :=
  pyStrip (pyReplace name " (forced)" "")

/-- Modelled from the spec: one timed cue of a subtitle document. -/
structure Cue where
  startMs : Nat
  endMs : Nat
  lines : List String
  deriving DecidableEq

/-- One block of a parsed WebVTT document: either a header/style block or a
cue block. -/
inductive Block where
  | head (content : String)
  | cue (c : Cue)
  deriving DecidableEq

/-- Whether a block is a header/style block. -/
def Block.isHead : Block → Bool
  | .head _ => true
  | .cue _ => false

/-- Modelled from the spec: a parsed in-memory subtitle track
(WebVTTSubtitles is not under src): an ordered block list (header/style
blocks and cue blocks) plus a declared text encoding. -/
structure CueDoc where
  blocks : List Block
  encoding : String
  deriving DecidableEq

/-- The cues of a document, in order. -/
def CueDoc.cues (d : CueDoc) : List Cue :=
  d.blocks.filterMap (fun b =>
    match b with
    | .cue c => some c
    | .head _ => none)

/-- Modelled from the spec: WebVTTSubtitles.remove_head_blocks strips the
header/style blocks entirely. -/
def remove_head_blocks (d : CueDoc) : CueDoc :=
  { d with blocks := d.blocks.filter (fun b => !b.isHead) }

/-- Modelled from the spec: WebVTTSubtitles.append_subtitles appends the
other document's blocks to the running document, in order. -/
def append_subtitles (d1 d2 : CueDoc) : CueDoc :=
  { d1 with blocks := d1.blocks ++ d2.blocks }

/-- Modelled from the spec: the SubRip-side document produced by to_srt:
cues plus a declared text encoding. -/
structure SrtDoc where
  cues : List Cue
  encoding : String
  deriving DecidableEq

/-- SubtitlesData of isubrip.data_structures, with the fields exactly as
constructed at src lines 137-144. -/
structure SubtitlesData where
  language_code : Option String
  language_name : String
  subtitles_format : SubtitlesFormatType
  content : String
  content_encoding : String
  special_type : Option SubtitlesType
  deriving DecidableEq

/-- SubtitlesDownloadError, with the fields exactly as constructed at src
lines 147-152. -/
structure SubtitlesDownloadError where
  language_code : Option String
  language_name : String
  special_type : Option SubtitlesType
  original_exc : Exc
  deriving DecidableEq

/-- One yielded element of the get_subtitles iterator: a per-stream success
or a per-stream failure. -/
inductive StreamOutput where
  | data (d : SubtitlesData)
  | failure (e : SubtitlesDownloadError)
  deriving DecidableEq

/-- Language code carried by an output, success or failure alike. -/
def StreamOutput.languageCode : StreamOutput → Option String
  | .data d => d.language_code
  | .failure e => e.language_code

/-- Language name carried by an output, success or failure alike. -/
def StreamOutput.languageName : StreamOutput → String
  | .data d => d.language_name
  | .failure e => e.language_name

/-- Special-type classification carried by an output, success or failure alike. -/
def StreamOutput.specialType : StreamOutput → Option SubtitlesType
  | .data d => d.special_type
  | .failure e => e.special_type

/-- The external collaborators of the pipeline: the HTTP session, the m3u8
parser, segment download, and the WebVTTSubtitles operations, each fallible
Python call being an Except-valued field, plus the pure classifier
detect_subtitles_type (computed outside the try-block in src). -/
structure Env where
  load_m3u8 : String → Option MasterPlaylist
  sessionGet : String → Except Exc String
  m3u8Loads : String → String → Except Exc (List String)
  downloadSegments : List String → Except Exc (List String)
  parseSegment : String → Option String → Except Exc CueDoc
  polishDoc : Bool → Bool → CueDoc → Except Exc CueDoc
  toSrt : CueDoc → Except Exc SrtDoc
  dumpSrt : SrtDoc → Except Exc String
  dumpVtt : CueDoc → Except Exc String
  detect_subtitles_type : MediaItem → Option SubtitlesType

/-- Pipeline stages of the spec's per-stream state machine. -/
inductive Stage where
  | fetching
  | merging
  | polishing
  | converting
  deriving DecidableEq

/-- The canonical stage order of the per-stream state machine. -/
def stageOrder : List Stage :=
  [Stage.fetching, Stage.merging, Stage.polishing, Stage.converting]

/-- Src lines 111-114 first half: fetch the media playlist text, parse it
into its segment list, and download every segment payload. -/
def fetchStage (env : Env) (m : MediaItem) : Except Exc (List String) :=
  match env.sessionGet m.absolute_uri with
  | .error e => .error e
  | .ok txt =>
    match env.m3u8Loads txt m.absolute_uri with
    | .error e => .error e
    | .ok segs => env.downloadSegments segs

/-- Src lines 117-120, the merge loop: parse each later segment as a
self-contained document, strip its head blocks, and append its cues to the
running document. -/
def mergeLoop (env : Env) (lang : Option String) (acc : CueDoc) :
    List String → Except Exc CueDoc
  | [] => .ok acc
  | s :: rest =>
    match env.parseSegment s lang with
    | .error e => .error e
    | .ok seg => mergeLoop env lang (append_subtitles acc (remove_head_blocks seg)) rest

/-- Src lines 115-120: the first segment is parsed in full (its head blocks
kept); an empty downloaded-segment list is an IndexError at
subtitles_segments[0]. -/
def mergeStage (env : Env) (lang : Option String) : List String → Except Exc CueDoc
  | [] => .error .indexError
  | s :: rest =>
    match env.parseSegment s lang with
    | .error e => .error e
    | .ok first => mergeLoop env lang first rest

/-- Src lines 129-135: render the polished document according to the
subrip_conversion flag, producing the format tag and the content. -/
def convertStage (env : Env) (subripConversion : Bool) (d : CueDoc) :
    Except Exc (SubtitlesFormatType × String) :=
  if subripConversion then
    match env.toSrt d with
    | .error e => .error e
    | .ok srt =>
      match env.dumpSrt srt with
      | .error e => .error e
      | .ok c => .ok (SubtitlesFormatType.subrip, c)
  else
    match env.dumpVtt d with
    | .error e => .error e
    | .ok c => .ok (SubtitlesFormatType.webvtt, c)

/-- Src lines 110-144: the try-block of one matched stream, instrumented
with the list of stages entered (the spec's per-stream state machine). -/
def streamBody (env : Env) (fixRtl removeDuplicates subripConversion : Bool)
    (m : MediaItem) : List Stage × Except Exc SubtitlesData :=
  match fetchStage env m with
  | .error e => ([Stage.fetching], Except.error e)
  | .ok segs =>
    match mergeStage env m.language segs with
    | .error e => ([Stage.fetching, Stage.merging], Except.error e)
    | .ok merged =>
      match env.polishDoc fixRtl removeDuplicates merged with
      | .error e => ([Stage.fetching, Stage.merging, Stage.polishing], Except.error e)
      | .ok polished =>
        match convertStage env subripConversion polished with
        | .error e => (stageOrder, Except.error e)
        | .ok fc =>
          (stageOrder,
            Except.ok
              { language_code := m.language
                language_name := cleanName m.name
                subtitles_format := fc.1
                content := fc.2
                content_encoding := polished.encoding
                special_type := env.detect_subtitles_type m })

/-- Src lines 105-152, one iteration of the loop over matched media: the
identifying metadata is computed before the try-block; the body yields a
SubtitlesData, and any exception of the body is converted into a
SubtitlesDownloadError carrying that metadata and the original exception. -/
def processMatchedMedia (env : Env) (fixRtl removeDuplicates subripConversion : Bool)
    (m : MediaItem) : StreamOutput :=
  let language_name := cleanName m.name
  let language_code := m.language
  let special_type := env.detect_subtitles_type m
  match (streamBody env fixRtl removeDuplicates subripConversion m).2 with
  | .ok d => StreamOutput.data d
  | .error e =>
    StreamOutput.failure
      { language_code := language_code
        language_name := language_name
        special_type := special_type
        original_exc := e }

/-- Src lines 90-152: ItunesScraper.get_subtitles. The generator is modelled
as an Except-valued list: the PlaylistLoadError raised before any per-stream
output is produced is the error case, otherwise the value is the ordered
list of per-stream outputs. -/
def get_subtitles (env : Env) (fixRtl removeDuplicates : Bool) (main_playlist : String)
    (language_filter : Option (List String)) (subripConversion : Bool) :
    Except Exc (List StreamOutput) :=
  match env.load_m3u8 main_playlist with
  | none => Except.error Exc.playlistLoadError
  | some mpl =>
    Except.ok ((get_media_playlists mpl (effectiveFilters language_filter)).map
      (processMatchedMedia env fixRtl removeDuplicates subripConversion))

/-- The HTTP response of the iTunes store URL, as used by get_data: the
status code and the optional Location header. -/
structure HttpResponse where
  status_code : Nat
  location : Option String
  deriving DecidableEq

/-- Modelled from the spec: utils.raise_for_status is not under src; per the
requests convention the code relies on, it raises HTTPError exactly for
status codes 400-599. -/
def raise_for_status (r : HttpResponse) : Except Exc Unit :=
  if 400 ≤ r.status_code ∧ r.status_code < 600 then
    Except.error (Exc.httpError r.status_code)
  else Except.ok ()

/-- Src lines 59-88: ItunesScraper.get_data after URL matching, as a
function of the HTTP response; success returns the Apple TV URL that the
call is delegated to, and appletvMatch models the Apple TV scraper's
match_url predicate. -/
def get_data (appletvMatch : String → Bool) (r : HttpResponse) : Except Exc String :=
  match raise_for_status r with
  | .error e =>
    if r.status_code = 404 then
      Except.error (Exc.scraperError "Media not found. This could indicate that the provided URL is invalid.")
    else Except.error e
  | .ok _ =>
    match r.location with
    | none => Except.error (Exc.scraperError "Apple TV redirect URL not found.")
    | some loc =>
      if r.status_code ≠ 301 ∨ loc = "" then
        Except.error (Exc.scraperError "Apple TV redirect URL not found.")
      else if ¬ appletvMatch loc then
        Except.error (Exc.scraperError "Redirect URL is not a valid Apple TV URL.")
      else Except.ok loc

/-- The behavior claimed for get_data, written independently of get_data's
own control flow: success exactly for a 301 response with a nonempty
Location matching the Apple TV pattern; a ScraperError for a 404, a
missing or invalid redirect, or a non-301 status; the underlying HTTPError
for any other HTTP failure. -/
def get_data_claimed (appletvMatch : String → Bool) (r : HttpResponse) : Except Exc String :=
  if r.status_code = 404 then
    Except.error (Exc.scraperError "Media not found. This could indicate that the provided URL is invalid.")
  else if 400 ≤ r.status_code ∧ r.status_code < 600 then
    Except.error (Exc.httpError r.status_code)
  else
    match r.location with
    | some loc =>
      if r.status_code = 301 ∧ loc ≠ "" then
        (if appletvMatch loc then Except.ok loc
         else Except.error (Exc.scraperError "Redirect URL is not a valid Apple TV URL."))
      else Except.error (Exc.scraperError "Apple TV redirect URL not found.")
    | none => Except.error (Exc.scraperError "Apple TV redirect URL not found.")


/-- Helper: the fields of a successful streamBody result are determined by
the matched media entry and the conversion flag. -/
theorem streamBody_ok_fields (env : Env) (f r s : Bool) (m : MediaItem)
    (d : SubtitlesData) (h : (streamBody env f r s m).2 = Except.ok d) :
    d.language_code = m.language ∧ d.language_name = cleanName m.name
      ∧ d.special_type = env.detect_subtitles_type m := by
  unfold streamBody at h
  cases hf : fetchStage env m with
  | error e => rw [hf] at h; simp at h
  | ok segs =>
    rw [hf] at h
    dsimp only at h
    cases hm : mergeStage env m.language segs with
    | error e => rw [hm] at h; simp at h
    | ok merged =>
      rw [hm] at h
      dsimp only at h
      cases hp : env.polishDoc f r merged with
      | error e => rw [hp] at h; simp at h
      | ok polished =>
        rw [hp] at h
        dsimp only at h
        cases hc : convertStage env s polished with
        | error e => rw [hc] at h; simp at h
        | ok fc =>
          rw [hc] at h
          dsimp only at h
          simp only [Except.ok.injEq] at h
          subst h
          exact ⟨rfl, rfl, rfl⟩

/-- Helper: the identifying metadata of the output of one matched stream is
a function of the entry alone, the same whether the stream succeeded or
failed. -/
theorem processMatchedMedia_meta (env : Env) (f r s : Bool) (m : MediaItem) :
    (processMatchedMedia env f r s m).languageCode = m.language
      ∧ (processMatchedMedia env f r s m).languageName = cleanName m.name
      ∧ (processMatchedMedia env f r s m).specialType = env.detect_subtitles_type m := by
  unfold processMatchedMedia
  cases h : (streamBody env f r s m).2 with
  | error e =>
    simp [StreamOutput.languageCode, StreamOutput.languageName, StreamOutput.specialType]
  | ok d =>
    obtain ⟨h1, h2, h3⟩ := streamBody_ok_fields env f r s m d h
    simp [StreamOutput.languageCode, StreamOutput.languageName, StreamOutput.specialType,
      h1, h2, h3]

/-- C3: only a failure to load/resolve the master playlist itself is
batch-fatal: get_subtitles errors exactly when load_m3u8 yields no playlist,
and then the error is PlaylistLoadError; the error case carries no
per-stream output, and in every other case the result is the full list of
per-stream outputs, so no exception escapes the batch iteration. -/
theorem c3_only_playlist_load_is_batch_fatal (env : Env) (f r : Bool)
    (mainPl : String) (lf : Option (List String)) (s : Bool) (e : Exc) :
    get_subtitles env f r mainPl lf s = Except.error e
      ↔ (env.load_m3u8 mainPl = none ∧ e = Exc.playlistLoadError) := by
  unfold get_subtitles
  cases h : env.load_m3u8 mainPl with
  | none => simp [eq_comm]
  | some mpl => simp

/-- C9: for every matched stream, the language name emitted (in the success
and the failure output alike) is the playlist entry's name with every
occurrence of " (forced)" removed and surrounding whitespace stripped, and
the language code and special-type classification are likewise the same
computed values in both outcomes. -/
theorem c9_metadata_name_cleaning (env : Env) (f r s : Bool) (m : MediaItem) :
    (processMatchedMedia env f r s m).languageName
        = pyStrip (pyReplace m.name " (forced)" "")
      ∧ (processMatchedMedia env f r s m).languageCode = m.language
      ∧ (processMatchedMedia env f r s m).specialType = env.detect_subtitles_type m :=
  ⟨(processMatchedMedia_meta env f r s m).2.1, (processMatchedMedia_meta env f r s m).1,
    (processMatchedMedia_meta env f r s m).2.2⟩

/-- C1: for every master playlist and filter, get_subtitles emits exactly
one output per matching stream (each output being a single success-or-failure
value, so never both and never neither), the outputs appear in the playlist
order of the matched streams (the matched list is an order-preserving
sublist of the playlist), and each position's output carries that stream's
identifying metadata, so no matched stream is silently dropped. -/
theorem c1_one_output_per_matched_stream (env : Env) (f r : Bool) (mainPl : String)
    (lf : Option (List String)) (s : Bool) (mpl : MasterPlaylist) (outs : List StreamOutput)
    (hload : env.load_m3u8 mainPl = some mpl)
    (hok : get_subtitles env f r mainPl lf s = Except.ok outs) :
    List.Sublist (get_media_playlists mpl (effectiveFilters lf)) mpl.media
      ∧ outs.length = (get_media_playlists mpl (effectiveFilters lf)).length
      ∧ ∀ i (h1 : i < outs.length) (h2 : i < (get_media_playlists mpl (effectiveFilters lf)).length),
          (outs.get ⟨i, h1⟩).languageCode
              = ((get_media_playlists mpl (effectiveFilters lf)).get ⟨i, h2⟩).language
            ∧ (outs.get ⟨i, h1⟩).languageName
              = cleanName ((get_media_playlists mpl (effectiveFilters lf)).get ⟨i, h2⟩).name
            ∧ (outs.get ⟨i, h1⟩).specialType
              = env.detect_subtitles_type ((get_media_playlists mpl (effectiveFilters lf)).get ⟨i, h2⟩) := by
  unfold get_subtitles at hok
  rw [hload] at hok
  dsimp only at hok
  have houts : outs = (get_media_playlists mpl (effectiveFilters lf)).map
      (processMatchedMedia env f r s) := by
    injection hok with hh
    exact hh.symm
  subst houts
  refine ⟨?_, by simp, ?_⟩
  · unfold get_media_playlists
    exact List.filter_sublist _
  · intro i h1 h2
    have hget : (((get_media_playlists mpl (effectiveFilters lf)).map
        (processMatchedMedia env f r s)).get ⟨i, h1⟩)
        = processMatchedMedia env f r s
            ((get_media_playlists mpl (effectiveFilters lf)).get ⟨i, h2⟩) := by
      simp [List.get_eq_getElem]
    rw [hget]
    exact processMatchedMedia_meta env f r s _

/-- C2: any exception raised during one matched stream's processing is
converted into a SubtitlesDownloadError carrying the original exception and
the stream's identifying metadata as computed before the try-block, and the
batch still contains one output per matched stream, so the remaining streams
are unaffected. -/
theorem c2_failure_converted_and_isolated (env : Env) (f r : Bool) (mainPl : String)
    (lf : Option (List String)) (s : Bool) (mpl : MasterPlaylist) (outs : List StreamOutput)
    (i : Nat) (m : MediaItem) (e : Exc)
    (hload : env.load_m3u8 mainPl = some mpl)
    (hok : get_subtitles env f r mainPl lf s = Except.ok outs)
    (h2 : i < (get_media_playlists mpl (effectiveFilters lf)).length)
    (hm : (get_media_playlists mpl (effectiveFilters lf)).get ⟨i, h2⟩ = m)
    (herr : (streamBody env f r s m).2 = Except.error e) :
    outs.length = (get_media_playlists mpl (effectiveFilters lf)).length
      ∧ ∀ h1 : i < outs.length,
          outs.get ⟨i, h1⟩ = StreamOutput.failure
            { language_code := m.language
              language_name := cleanName m.name
              special_type := env.detect_subtitles_type m
              original_exc := e } := by
  unfold get_subtitles at hok
  rw [hload] at hok
  dsimp only at hok
  have houts : outs = (get_media_playlists mpl (effectiveFilters lf)).map
      (processMatchedMedia env f r s) := by
    injection hok with hh
    exact hh.symm
  subst houts
  refine ⟨by simp, ?_⟩
  intro h1
  have hget : (((get_media_playlists mpl (effectiveFilters lf)).map
      (processMatchedMedia env f r s)).get ⟨i, h1⟩)
      = processMatchedMedia env f r s
          ((get_media_playlists mpl (effectiveFilters lf)).get ⟨i, h2⟩) := by
    simp [List.get_eq_getElem]
  rw [hget, hm]
  unfold processMatchedMedia
  rw [herr]



/-- Helper: the merge loop folds the stripped later segments onto the
accumulator, appending cue blocks in order and keeping the accumulator's
encoding, whenever every later segment parses. -/
theorem mergeLoop_ok (env : Env) (lang : Option String) (rest : List String)
    (docs : List CueDoc)
    (hparse : List.Forall₂ (fun sg d => env.parseSegment sg lang = Except.ok d) rest docs) :
    ∀ acc : CueDoc, mergeLoop env lang acc rest =
      Except.ok { blocks := acc.blocks ++
                    (docs.map (fun d => d.blocks.filter (fun b => !b.isHead))).flatten,
                  encoding := acc.encoding } := by
  induction hparse with
  | nil => intro acc; simp [mergeLoop]
  | @cons sg d rest2 docs2 h tl ih =>
    intro acc
    unfold mergeLoop
    rw [h]
    dsimp only
    rw [ih]
    simp [append_subtitles, remove_head_blocks, List.flatten_cons, List.append_assoc]

/-- C5: during merge, the first segment's payload is parsed in full and its
header/style blocks are retained as the document head, every later segment
contributes only its non-head blocks (its head blocks are removed before its
cues are appended), and segments are appended in their fetched playlist
order; the declared encoding is the first segment's. -/
theorem c5_merge_structure (env : Env) (lang : Option String) (s0 : String)
    (rest : List String) (d0 : CueDoc) (docs : List CueDoc)
    (h0 : env.parseSegment s0 lang = Except.ok d0)
    (hparse : List.Forall₂ (fun sg d => env.parseSegment sg lang = Except.ok d) rest docs) :
    mergeStage env lang (s0 :: rest) =
      Except.ok { blocks := d0.blocks ++
                    (docs.map (fun d => d.blocks.filter (fun b => !b.isHead))).flatten,
                  encoding := d0.encoding } := by
  unfold mergeStage
  dsimp only
  rw [h0]
  dsimp only
  exact mergeLoop_ok env lang rest docs hparse d0

/-- Helper: decomposition of a successful per-stream run into the values
produced by its four stages. -/
theorem streamBody_ok_decomp (env : Env) (f r s : Bool) (m : MediaItem)
    (d : SubtitlesData) (h : (streamBody env f r s m).2 = Except.ok d) :
    ∃ segs merged polished,
      fetchStage env m = Except.ok segs
      ∧ mergeStage env m.language segs = Except.ok merged
      ∧ env.polishDoc f r merged = Except.ok polished
      ∧ convertStage env s polished = Except.ok (d.subtitles_format, d.content)
      ∧ d.content_encoding = polished.encoding := by
  unfold streamBody at h
  cases hf : fetchStage env m with
  | error e => rw [hf] at h; simp at h
  | ok segs =>
    rw [hf] at h
    dsimp only at h
    cases hm : mergeStage env m.language segs with
    | error e => rw [hm] at h; simp at h
    | ok merged =>
      rw [hm] at h
      dsimp only at h
      cases hp : env.polishDoc f r merged with
      | error e => rw [hp] at h; simp at h
      | ok polished =>
        rw [hp] at h
        dsimp only at h
        cases hc : convertStage env s polished with
        | error e => rw [hc] at h; simp at h
        | ok fc =>
          rw [hc] at h
          dsimp only at h
          simp only [Except.ok.injEq] at h
          subst h
          exact ⟨segs, merged, polished, rfl, hm, hp, hc, rfl⟩

/-- Helper: a successful conversion with subrip_conversion true goes through
to_srt and the SubRip dump. -/
theorem convertStage_ok_true (env : Env) (dd : CueDoc) (fmt : SubtitlesFormatType)
    (c : String) (h : convertStage env true dd = Except.ok (fmt, c)) :
    fmt = SubtitlesFormatType.subrip
      ∧ ∃ srt, env.toSrt dd = Except.ok srt ∧ env.dumpSrt srt = Except.ok c := by
  unfold convertStage at h
  rw [if_pos rfl] at h
  cases ht : env.toSrt dd with
  | error e => rw [ht] at h; simp at h
  | ok srt =>
    rw [ht] at h
    dsimp only at h
    cases hd : env.dumpSrt srt with
    | error e => rw [hd] at h; simp at h
    | ok c2 =>
      rw [hd] at h
      simp only [Except.ok.injEq, Prod.mk.injEq] at h
      refine ⟨h.1.symm, srt, rfl, ?_⟩
      rw [← h.2]
      exact hd

/-- Helper: a successful conversion with subrip_conversion false is the
native WebVTT dump. -/
theorem convertStage_ok_false (env : Env) (dd : CueDoc) (fmt : SubtitlesFormatType)
    (c : String) (h : convertStage env false dd = Except.ok (fmt, c)) :
    fmt = SubtitlesFormatType.webvtt ∧ env.dumpVtt dd = Except.ok c := by
  unfold convertStage at h
  rw [if_neg (by simp)] at h
  cases hd : env.dumpVtt dd with
  | error e => rw [hd] at h; simp at h
  | ok c2 =>
    rw [hd] at h
    simp only [Except.ok.injEq, Prod.mk.injEq] at h
    refine ⟨h.1.symm, ?_⟩
    rw [← h.2]

/-- C6: for every successfully processed stream, the emitted format tag and
content are determined by the subrip_conversion flag: with the flag the
result is tagged SubRip and the content is the SRT rendering of the polished
document, without it the result is tagged WebVTT and the content is the
document's native rendering. -/
theorem c6_format_and_content_by_flag (env : Env) (f r s : Bool) (m : MediaItem)
    (d : SubtitlesData) (h : (streamBody env f r s m).2 = Except.ok d) :
    d.subtitles_format
        = (if s then SubtitlesFormatType.subrip else SubtitlesFormatType.webvtt)
      ∧ ∃ segs merged polished,
          fetchStage env m = Except.ok segs
          ∧ mergeStage env m.language segs = Except.ok merged
          ∧ env.polishDoc f r merged = Except.ok polished
          ∧ (s = true → ∃ srt, env.toSrt polished = Except.ok srt
              ∧ env.dumpSrt srt = Except.ok d.content)
          ∧ (s = false → env.dumpVtt polished = Except.ok d.content) := by
  obtain ⟨segs, merged, polished, hf, hm, hp, hc, he⟩ :=
    streamBody_ok_decomp env f r s m d h
  cases s with
  | true =>
    obtain ⟨hfmt, srt, hts, hds⟩ := convertStage_ok_true env polished _ _ hc
    refine ⟨by simp [hfmt], segs, merged, polished, hf, hm, hp,
      fun _ => ⟨srt, hts, hds⟩, fun hfalse => absurd hfalse (by simp)⟩
  | false =>
    obtain ⟨hfmt, hdv⟩ := convertStage_ok_false env polished _ _ hc
    refine ⟨by simp [hfmt], segs, merged, polished, hf, hm, hp,
      fun htrue => absurd htrue (by simp), fun _ => hdv⟩

/-- C7: when polishing preserves the declared encoding (it only rewrites
cues) and to_srt carries the encoding over (SubRip mandates no specific
encoding, so none is transcoded), the encoding reported with a successful
result equals the declared encoding of the merged source document, and for a
SubRip-converted result the document whose dump produced the emitted bytes
carries exactly the reported encoding. -/
theorem c7_encoding_reported (env : Env) (f r s : Bool) (m : MediaItem)
    (d : SubtitlesData)
    (hpol : ∀ a b x y, env.polishDoc a b x = Except.ok y → y.encoding = x.encoding)
    (hsrt : ∀ x y, env.toSrt x = Except.ok y → y.encoding = x.encoding)
    (h : (streamBody env f r s m).2 = Except.ok d) :
    (∃ segs merged, fetchStage env m = Except.ok segs
        ∧ mergeStage env m.language segs = Except.ok merged
        ∧ d.content_encoding = merged.encoding)
      ∧ (s = true → ∃ srt, env.dumpSrt srt = Except.ok d.content
          ∧ srt.encoding = d.content_encoding) := by
  obtain ⟨segs, merged, polished, hf, hm, hp, hc, he⟩ :=
    streamBody_ok_decomp env f r s m d h
  constructor
  · exact ⟨segs, merged, hf, hm, by rw [he, hpol _ _ _ _ hp]⟩
  · intro hs
    subst hs
    obtain ⟨hfmt, srt, hts, hds⟩ := convertStage_ok_true env polished _ _ hc
    exact ⟨srt, hds, by rw [hsrt _ _ hts, he]⟩

/-- C8: within one stream's pipeline the entered stages are always an
initial part of fetch, merge, polish, convert in this fixed order, no stage
occurs twice (no retries), and a successful run enters all four stages; a
failing run's trace stops at the raising stage, so nothing runs after the
failure. -/
theorem c8_stage_order_per_stream (env : Env) (f r s : Bool) (m : MediaItem) :
    (∃ n, (streamBody env f r s m).1 = stageOrder.take n)
      ∧ (streamBody env f r s m).1.Nodup
      ∧ ∀ d, (streamBody env f r s m).2 = Except.ok d
          → (streamBody env f r s m).1 = stageOrder := by
  unfold streamBody
  cases hf : fetchStage env m with
  | error e =>
    dsimp only
    exact ⟨⟨1, rfl⟩, by decide, fun d hd => by simp at hd⟩
  | ok segs =>
    dsimp only
    cases hm : mergeStage env m.language segs with
    | error e =>
      dsimp only
      exact ⟨⟨2, rfl⟩, by decide, fun d hd => by simp at hd⟩
    | ok merged =>
      dsimp only
      cases hp : env.polishDoc f r merged with
      | error e =>
        dsimp only
        exact ⟨⟨3, rfl⟩, by decide, fun d hd => by simp at hd⟩
      | ok polished =>
        dsimp only
        cases hc : convertStage env s polished with
        | error e =>
          dsimp only
          exact ⟨⟨4, rfl⟩, by decide, fun d hd => by simp at hd⟩
        | ok fc =>
          dsimp only
          exact ⟨⟨4, rfl⟩, by decide, fun d hd => rfl⟩


/-- C10: get_data behaves exactly as claimed — it succeeds (delegating the
redirect URL to the Apple TV scraper) only for a 301 response carrying a
nonempty Location matching the Apple TV pattern, raises ScraperError for a
404, a missing or invalid redirect, or a non-301 status, and re-raises the
underlying HTTPError for any other HTTP failure. -/
theorem c10_get_data_characterization (am : String → Bool) (r : HttpResponse) :
    get_data am r = get_data_claimed am r := by
  unfold get_data get_data_claimed raise_for_status
  by_cases h4 : 400 ≤ r.status_code ∧ r.status_code < 600
  · rw [if_pos h4]
    dsimp only
    by_cases h44 : r.status_code = 404
    · rw [if_pos h44, if_pos h44]
    · rw [if_neg h44, if_neg h44, if_pos h4]
  · rw [if_neg h4]
    dsimp only
    have h44 : ¬ r.status_code = 404 := by
      intro hx
      exact h4 ⟨by omega, by omega⟩
    rw [if_neg h44, if_neg h4]
    cases hl : r.location with
    | none => rfl
    | some loc =>
      dsimp only
      by_cases h301 : r.status_code = 301
      · by_cases hloc : loc = ""
        · have hand : ¬(r.status_code = 301 ∧ ¬loc = "") := fun ha => ha.2 hloc
          rw [if_pos (Or.inr hloc), if_neg hand]
        · have hor : ¬(¬r.status_code = 301 ∨ loc = "") :=
            fun ho => ho.elim (fun hh => hh h301) hloc
          have hand2 : r.status_code = 301 ∧ ¬loc = "" := ⟨h301, hloc⟩
          rw [if_neg hor, if_pos hand2]
          by_cases ham : am loc = true
          · have hno : ¬¬(am loc = true) := fun hh => hh ham
            rw [if_neg hno, if_pos ham]
          · rw [if_pos ham, if_neg ham]
      · have hand : ¬(r.status_code = 301 ∧ ¬loc = "") := fun ha => h301 ha.1
        rw [if_pos (Or.inl h301), if_neg hand]

/-- Helper: list containment is monotone under appending on the right. -/
theorem contains_append_left (xs ys : List String) (v : String)
    (h : xs.contains v = true) : (xs ++ ys).contains v = true :=
  List.elem_eq_true_of_mem (List.mem_append_left ys (List.mem_of_elem_eq_true h))

/-- C4 amended: merging unions the allowed-value sets per key and so never
narrows a key that the base already constrains; hence whenever the override
introduces no key absent from the base, every stream matched by the base
rules alone is still matched by the merged rules. (With a genuinely new key
in the override — as with the language filter over the iTunes base rules —
the merged filter adds a constraint and can exclude streams.) -/
theorem c4_merge_monotone_when_no_new_keys
    (d1 d2 : List (String × List String)) (m : MediaItem)
    (hkeys : ∀ p ∈ d2, (lookupVals d1 p.1).isSome = true)
    (hm : matchesFilters m d1 = true) :
    matchesFilters m (merge_dict_values d1 d2) = true := by
  unfold matchesFilters merge_dict_values
  unfold matchesFilters at hm
  rw [List.all_eq_true] at hm ⊢
  intro q hq
  rcases List.mem_append.mp hq with hq1 | hq2
  · obtain ⟨p, hp, hpq⟩ := List.mem_map.mp hq1
    have hpm := hm p hp
    subst hpq
    dsimp only
    cases hA : m.getAttr p.1 with
    | none =>
      rw [hA] at hpm
      simp at hpm
    | some v =>
      rw [hA] at hpm
      dsimp only at hpm ⊢
      exact contains_append_left _ _ _ hpm
  · exfalso
    have hq2m := List.mem_filter.mp hq2
    have hsome := hkeys q hq2m.1
    have hnone := hq2m.2
    cases hx : lookupVals d1 q.1 with
    | none => rw [hx] at hsome; simp at hsome
    | some vs => rw [hx] at hnone; simp at hnone


/-- Decidable equality for Except values with decidable components, used to
evaluate the embedded pipeline on concrete inputs. -/
instance instDecEqExcept {e a : Type} [DecidableEq e] [DecidableEq a] :
    DecidableEq (Except e a) := fun x y =>
  match x, y with
  | Except.error u, Except.error v =>
    if h : u = v then isTrue (by rw [h]) else isFalse (by intro hc; cases hc; exact h rfl)
  | Except.error _, Except.ok _ => isFalse (by intro hc; cases hc)
  | Except.ok _, Except.error _ => isFalse (by intro hc; cases hc)
  | Except.ok u, Except.ok v =>
    if h : u = v then isTrue (by rw [h]) else isFalse (by intro hc; cases hc; exact h rfl)

/-- A forced English subtitle stream used by the concrete witnesses. -/
def enItem : MediaItem :=
  { name := "English (forced)"
    language := some "en"
    groupId := some "subtitles_ak"
    mediaType := some "SUBTITLES"
    absolute_uri := "https://example.test/en.m3u8"
    forced := true }

/-- A French subtitle stream matched by the iTunes base filter rules. -/
def frItem : MediaItem :=
  { name := "French"
    language := some "fr"
    groupId := some "subtitles_ak"
    mediaType := some "SUBTITLES"
    absolute_uri := "https://example.test/fr.m3u8"
    forced := false }

/-- A sample cue for the concrete witnesses. -/
def sampleCue : Cue := { startMs := 0, endMs := 1000, lines := ["hello"] }

/-- A sample parsed segment document for the concrete witnesses. -/
def sampleDoc : CueDoc :=
  { blocks := [Block.head "WEBVTT", Block.cue sampleCue], encoding := "utf-8" }

/-- The master playlist used by the success witnesses. -/
def samplePlaylist : MasterPlaylist := { media := [enItem] }

/-- A fully successful concrete environment for the witnesses. -/
def sampleEnv : Env :=
  { load_m3u8 := fun _ => some samplePlaylist
    sessionGet := fun _ => Except.ok "media-playlist-text"
    m3u8Loads := fun _ _ => Except.ok ["seg0.vtt", "seg1.vtt"]
    downloadSegments := fun l => Except.ok l
    parseSegment := fun _ _ => Except.ok sampleDoc
    polishDoc := fun _ _ d => Except.ok d
    toSrt := fun d => Except.ok { cues := d.cues, encoding := d.encoding }
    dumpSrt := fun _ => Except.ok "1\n00:00:00,000 --> 00:00:01,000\nhello\n"
    dumpVtt := fun _ => Except.ok "WEBVTT\nhello\n"
    detect_subtitles_type := fun mi => if mi.forced then some SubtitlesType.forced else none }

/-- sampleEnv with a failing segment download, for the failure witnesses. -/
def failEnv : Env :=
  { sampleEnv with downloadSegments := fun _ => Except.error (Exc.httpError 500) }

/-- The environment of the C4 counterexample: its master playlist holds one
French subtitle stream. -/
def cexEnv : Env :=
  { sampleEnv with load_m3u8 := fun _ => some { media := [frItem] } }

/-- The successful output produced by sampleEnv on enItem with SubRip
conversion requested. -/
def sampleData : SubtitlesData :=
  { language_code := some "en"
    language_name := "English"
    subtitles_format := SubtitlesFormatType.subrip
    content := "1\n00:00:00,000 --> 00:00:01,000\nhello\n"
    content_encoding := "utf-8"
    special_type := some SubtitlesType.forced }

/-- The failure output produced by failEnv on enItem. -/
def sampleFailure : SubtitlesDownloadError :=
  { language_code := some "en"
    language_name := "English"
    special_type := some SubtitlesType.forced
    original_exc := Exc.httpError 500 }

/-- sampleEnv whose master playlist does not load, for the C3 witness. -/
def noneEnv : Env :=
  { sampleEnv with load_m3u8 := fun _ => none }

/-- C4 counterexample: the French stream is matched by the iTunes base
filter rules alone, but supplying the language filter ["en"] to
get_subtitles merges in a language key the base rules do not constrain, so
the merged filter excludes the stream: with no filter the batch has one
output, with the filter it has none. The claimed monotonic broadening fails. -/
theorem c4_counterexample :
    matchesFilters frItem itunes_subtitles_filters = true
      ∧ matchesFilters frItem
          (merge_dict_values itunes_subtitles_filters [("language", ["en"])]) = false
      ∧ (get_subtitles cexEnv false false "u" none false).map List.length = Except.ok 1
      ∧ (get_subtitles cexEnv false false "u" (some ["en"]) false).map List.length
          = Except.ok 0 := by
  decide

/-- Witness for C1 at a concrete environment with one matched stream. -/
theorem c1_witness :
    get_subtitles sampleEnv false false "u" none true
        = Except.ok [StreamOutput.data sampleData]
      ∧ [StreamOutput.data sampleData].length
          = (get_media_playlists samplePlaylist (effectiveFilters none)).length :=
  ⟨by decide,
    (c1_one_output_per_matched_stream sampleEnv false false "u" none true samplePlaylist
      [StreamOutput.data sampleData] rfl (by decide)).2.1⟩

/-- Witness for C2 at a concrete environment whose segment download fails. -/
theorem c2_witness :
    get_subtitles failEnv false false "u" none true
        = Except.ok [StreamOutput.failure sampleFailure]
      ∧ [StreamOutput.failure sampleFailure].get ⟨0, Nat.zero_lt_one⟩
          = StreamOutput.failure
              { language_code := enItem.language
                language_name := cleanName enItem.name
                special_type := failEnv.detect_subtitles_type enItem
                original_exc := Exc.httpError 500 } :=
  ⟨by decide,
    (c2_failure_converted_and_isolated failEnv false false "u" none true samplePlaylist
        [StreamOutput.failure sampleFailure] 0 enItem (Exc.httpError 500) rfl (by decide)
        (by decide) (by decide) (by decide)).2 Nat.zero_lt_one⟩

/-- Witness for C3 at a concrete environment whose master playlist fails to
load. -/
theorem c3_witness :
    get_subtitles noneEnv false false "u" none true
      = Except.error Exc.playlistLoadError :=
  (c3_only_playlist_load_is_batch_fatal noneEnv false false "u" none true
      Exc.playlistLoadError).mpr ⟨rfl, rfl⟩

/-- Witness for the amended C4 at concrete rule sets sharing their key. -/
theorem c4_witness :
    matchesFilters enItem [("language", ["en"])] = true
      ∧ matchesFilters enItem
          (merge_dict_values [("language", ["en"])] [("language", ["fr"])]) = true :=
  ⟨by decide,
    c4_merge_monotone_when_no_new_keys [("language", ["en"])] [("language", ["fr"])] enItem
      (by decide) (by decide)⟩

/-- Witness for C5 at concrete parsed segments. -/
theorem c5_witness :
    sampleEnv.parseSegment "seg0.vtt" (some "en") = Except.ok sampleDoc
      ∧ mergeStage sampleEnv (some "en") ["seg0.vtt", "seg1.vtt"]
          = Except.ok { blocks := [Block.head "WEBVTT", Block.cue sampleCue,
                                   Block.cue sampleCue],
                        encoding := "utf-8" } :=
  ⟨rfl,
    c5_merge_structure sampleEnv (some "en") "seg0.vtt" ["seg1.vtt"] sampleDoc [sampleDoc]
      rfl (List.Forall₂.cons rfl List.Forall₂.nil)⟩

/-- Witness for C6 at a concrete successful SubRip-converted run. -/
theorem c6_witness :
    (streamBody sampleEnv false false true enItem).2 = Except.ok sampleData
      ∧ sampleData.subtitles_format
          = (if true then SubtitlesFormatType.subrip else SubtitlesFormatType.webvtt) :=
  ⟨by decide,
    (c6_format_and_content_by_flag sampleEnv false false true enItem sampleData
      (by decide)).1⟩

/-- Witness for C7 at a concrete successful run with encoding-preserving
polish and conversion. -/
theorem c7_witness :
    (streamBody sampleEnv false false true enItem).2 = Except.ok sampleData
      ∧ ∃ segs merged, fetchStage sampleEnv enItem = Except.ok segs
          ∧ mergeStage sampleEnv enItem.language segs = Except.ok merged
          ∧ sampleData.content_encoding = merged.encoding :=
  ⟨by decide,
    (c7_encoding_reported sampleEnv false false true enItem sampleData
        (fun a b x y h => by injection h with hh; rw [← hh])
        (fun x y h => by injection h with hh; rw [← hh])
        (by decide)).1⟩

/-- Witness for C8 at a concrete run. -/
theorem c8_witness :
    ∃ n, (streamBody sampleEnv false false true enItem).1 = stageOrder.take n :=
  (c8_stage_order_per_stream sampleEnv false false true enItem).1

/-- Witness for C10 at a concrete redirecting response. -/
theorem c10_witness :
    get_data (fun _ => true) { status_code := 301, location := some "https://tv.apple.com/x" }
      = get_data_claimed (fun _ => true)
          { status_code := 301, location := some "https://tv.apple.com/x" } :=
  c10_get_data_characterization (fun _ => true)
    { status_code := 301, location := some "https://tv.apple.com/x" }

end Isubrip
